import Mathlib

/-!
Verification of the multi-tenant SaaS backend (data model in
app/models/models.py, auth flow in app/routers/auth.py) against its
natural-language specification.

The data model and the two endpoints are shallowly embedded: ORM rows become
Lean structures, the declared unique constraints become predicates over lists
of rows, and the login/register handlers become pure functions over an
explicit store (a list of user rows), with the fresh UUID, the hash salt and
the current time passed in as explicit parameters.
-/

namespace Saas

/-! ## Enumerations (models.py UserRole / SubscriptionStatus) -/

inductive UserRole where
  | super_admin
  | user
  | pro
  | admin
deriving DecidableEq, Repr

inductive SubscriptionStatus where
  | free
  | active
  | canceled
  | past_due
  | expired
deriving DecidableEq, Repr

/-! ## Credential store

core/security.py (verify_password, create_access_token, hash_password) is not
among the shown source files; only its import and call sites are.
-/

/-- Modelled from the spec: core/security.py is absent from the sources.
Per spec 4.1, hash(password) is a salted transform such that verify accepts
exactly the producing password and hashes differ across calls as the salt
varies.  We model a perfect salted hash as an opaque-to-callers structure
carrying the password and the salt. -/
structure Hash where
  pw : String
  salt : Nat
deriving DecidableEq, Repr

/-- Modelled from the spec: spec 4.1 hash(password). -/
def hash_password (password : String) (salt : Nat) : Hash :=
  { pw := password, salt := salt }

/-- Modelled from the spec: spec 4.1 verify(password, hash), true iff the
password matches the one that produced the hash. -/
def verify_password (password : String) (h : Hash) : Bool :=
  password == h.pw

/-- Modelled from the spec: spec 4.1 issue_token / spec 6, a token decodable
to subject and role claims.  Signing and expiry are external collaborators;
the claims content is what the auth-flow claims are about. -/
structure Token where
  sub : String
  role : UserRole
deriving DecidableEq, Repr

/-- Modelled from the spec: create_access_token(sub=..., extra={"role": ...})
as called from routers/auth.py line 27. -/
def create_access_token (sub : String) (role : UserRole) : Token :=
  { sub := sub, role := role }

/-! ## User rows (models.py class User) -/

/-- One row of the users table, with the columns of models.py lines 102-130.
UUIDs are abstracted as Nat, timestamps and calendar dates as Nat. -/
structure UserRow where
  id : Nat
  brand_id : Option Nat
  name : String
  email : String
  phone : String
  password_hash : Hash
  role : UserRole
  is_active : Bool
  challenge_started_at : Option Nat
  whatsapp_ai_active_until : Option Nat
  plan_id : Option Nat
  subscription_status : SubscriptionStatus
  plan_valid_until : Option Nat
  external_customer_id : Option String
  created_at : Nat
  updated_at : Nat
deriving DecidableEq, Repr

/-! ### Declared uniqueness constraints of the users table

models.py declares, simultaneously:
 - column-level unique=True on email (line 107) and on phone (line 108);
 - UniqueConstraint("brand_id", "email") and
   UniqueConstraint("brand_id", "phone") in __table_args__ (lines 150-155).
A list of rows is admissible for the table iff it satisfies all of them. -/

def emailGloballyUnique (rows : List UserRow) : Prop :=
  rows.Pairwise (fun a b => a.email ≠ b.email)

def phoneGloballyUnique (rows : List UserRow) : Prop :=
  rows.Pairwise (fun a b => a.phone ≠ b.phone)

def uq_users_brand_email (rows : List UserRow) : Prop :=
  rows.Pairwise (fun a b => ¬(a.brand_id = b.brand_id ∧ a.email = b.email))

def uq_users_brand_phone (rows : List UserRow) : Prop :=
  rows.Pairwise (fun a b => ¬(a.brand_id = b.brand_id ∧ a.phone = b.phone))

/-- All uniqueness constraints declared on the users table in models.py. -/
def usersTableOk (rows : List UserRow) : Prop :=
  emailGloballyUnique rows ∧ phoneGloballyUnique rows ∧
    uq_users_brand_email rows ∧ uq_users_brand_phone rows

instance (rows : List UserRow) : Decidable (emailGloballyUnique rows) := by
  unfold emailGloballyUnique; infer_instance

instance (rows : List UserRow) : Decidable (phoneGloballyUnique rows) := by
  unfold phoneGloballyUnique; infer_instance

instance (rows : List UserRow) : Decidable (uq_users_brand_email rows) := by
  unfold uq_users_brand_email; infer_instance

instance (rows : List UserRow) : Decidable (uq_users_brand_phone rows) := by
  unfold uq_users_brand_phone; infer_instance

instance (rows : List UserRow) : Decidable (usersTableOk rows) := by
  unfold usersTableOk; infer_instance

/-! ## Auth flow (routers/auth.py) -/

/-- Python str.strip(): drop whitespace from both ends of the character
sequence. -/
def pyStrip (s : List Char) : List Char :=
  ((s.dropWhile Char.isWhitespace).reverse.dropWhile Char.isWhitespace).reverse

/-- routers/auth.py line 12: (email or "").strip().lower(), modelled
character-wise over the string's characters. -/
def normalize_email (email : String) : String :=
  String.mk ((pyStrip email.data).map Char.toLower)

/-- schemas/auth.py LoginIn. -/
structure LoginIn where
  email : String
  password : String
deriving DecidableEq, Repr

/-- schemas/auth.py UserCreate (the shape validation on the fields is the
request schema collaborator's job, outside this flow). -/
structure UserCreate where
  name : String
  email : String
  phone : String
  password : String
deriving DecidableEq, Repr

/-- schemas/auth.py TokenOut. -/
structure TokenOut where
  access_token : Token
  token_type : String
deriving DecidableEq, Repr

/-- The register response body, {"id": ..., "email": ...} of auth.py
line 58.  It has no token field. -/
structure RegisterOut where
  id : String
  email : String
deriving DecidableEq, Repr

/-- An HTTPException raised by the handlers: status code and detail. -/
structure AuthError where
  status : Nat
  detail : String
deriving DecidableEq, Repr

def invalidCredentialsErr : AuthError := { status := 401, detail := "Credenciais inválidas" }

def duplicateEmailErr : AuthError := { status := 400, detail := "Esse email já foi cadastrado" }

def duplicatePhoneErr : AuthError := { status := 400, detail := "Esse telefone já foi cadastrado" }

/-- Outcome of one handler call: the HTTP result, the store afterwards, and
how many write transactions (db.commit calls) the handler performed. -/
structure StepResult (α : Type) where
  result : Except AuthError α
  db : List UserRow
  commits : Nat
deriving Repr

/-- routers/auth.py lines 16-28.  Looks the user up by normalized email
(query ... filter(User.email == email).first()), rejects a missing or
inactive user, then a failing password check, with one and the same 401,
and otherwise issues the token with subject str(u.id) and claim role. -/
def login (data : LoginIn) (db : List UserRow) : StepResult TokenOut :=
  match db.find? (fun r => r.email == normalize_email data.email) with
  | none => { result := .error invalidCredentialsErr, db := db, commits := 0 }
  | some u =>
    if !u.is_active then
      { result := .error invalidCredentialsErr, db := db, commits := 0 }
    else if !verify_password data.password u.password_hash then
      { result := .error invalidCredentialsErr, db := db, commits := 0 }
    else
      { result := .ok { access_token := create_access_token (toString u.id) u.role,
                        token_type := "bearer" },
        db := db, commits := 0 }

/-- The row auth.py lines 44-52 constructs: brand_id is not taken from the
input (the brand_id argument is commented out in the source, so the nullable
column stays empty), role is user, is_active true, the hash comes from
hash_password.  The fresh UUID, the salt and the clock are explicit
parameters. -/
def newUserRow (user_in : UserCreate) (freshId salt now : Nat) : UserRow :=
  { id := freshId
    brand_id := none
    name := user_in.name
    email := normalize_email user_in.email
    phone := user_in.phone
    password_hash := hash_password user_in.password salt
    role := .user
    is_active := true
    challenge_started_at := none
    whatsapp_ai_active_until := none
    plan_id := none
    subscription_status := .free
    plan_valid_until := none
    external_customer_id := none
    created_at := now
    updated_at := now }

/-- routers/auth.py lines 31-58.  Normalizes the email, rejects a duplicate
email then a duplicate phone with 400s, otherwise inserts the single new row
and commits once, answering {"id": str(u.id), "email": u.email}. -/
def register (user_in : UserCreate) (freshId salt now : Nat) (db : List UserRow) :
    StepResult RegisterOut :=
  if (db.find? (fun r => r.email == normalize_email user_in.email)).isSome then
    { result := .error duplicateEmailErr, db := db, commits := 0 }
  else if (db.find? (fun r => r.phone == user_in.phone)).isSome then
    { result := .error duplicatePhoneErr, db := db, commits := 0 }
  else
    let u := newUserRow user_in freshId salt now
    { result := .ok { id := toString u.id, email := u.email },
      db := db ++ [u], commits := 1 }

/-! ## Workout sessions (models.py WorkoutSession / WorkoutSessionItem) -/

/-- One row of workout_sessions, models.py lines 275-296. -/
structure WorkoutSessionRow where
  id : Nat
  brand_id : Nat
  user_id : Nat
  workout_template_id : Nat
  session_date : Nat
  is_completed : Bool
  created_at : Nat
  updated_at : Nat
deriving DecidableEq, Repr

/-- One row of workout_session_items, models.py lines 299-313. -/
structure WorkoutSessionItemRow where
  id : Nat
  session_id : Nat
  exercise_id : Nat
  is_done : Bool
deriving DecidableEq, Repr

/-- Two session rows collide on UniqueConstraint("user_id",
"workout_template_id", "session_date") (uq_session_unique_day). -/
def sessionKeyClash (a b : WorkoutSessionRow) : Bool :=
  a.user_id == b.user_id && a.workout_template_id == b.workout_template_id &&
    a.session_date == b.session_date

/-- Two item rows collide on UniqueConstraint("session_id", "exercise_id")
(uq_session_exercise). -/
def itemKeyClash (a b : WorkoutSessionItemRow) : Bool :=
  a.session_id == b.session_id && a.exercise_id == b.exercise_id

/-- uq_session_unique_day, models.py line 294, as a table invariant. -/
def uq_session_unique_day (rows : List WorkoutSessionRow) : Prop :=
  rows.Pairwise (fun a b => sessionKeyClash a b = false)

/-- uq_session_exercise, models.py line 311, as a table invariant. -/
def uq_session_exercise (rows : List WorkoutSessionItemRow) : Prop :=
  rows.Pairwise (fun a b => itemKeyClash a b = false)

instance (rows : List WorkoutSessionRow) : Decidable (uq_session_unique_day rows) := by
  unfold uq_session_unique_day; infer_instance

instance (rows : List WorkoutSessionItemRow) : Decidable (uq_session_exercise rows) := by
  unfold uq_session_exercise; infer_instance

/-- A unique-constraint violation reported by the storage engine. -/
inductive DbError where
  | uniqueViolation
deriving DecidableEq, Repr

/-- The storage engine (an external collaborator per spec 1) inserting into
workout_sessions while enforcing the declared uq_session_unique_day. -/
def insertWorkoutSession (rows : List WorkoutSessionRow) (r : WorkoutSessionRow) :
    Except DbError (List WorkoutSessionRow) :=
  if rows.any (fun s => sessionKeyClash s r) then .error .uniqueViolation
  else .ok (rows ++ [r])

/-- The storage engine inserting into workout_session_items while enforcing
the declared uq_session_exercise. -/
def insertSessionItem (rows : List WorkoutSessionItemRow) (r : WorkoutSessionItemRow) :
    Except DbError (List WorkoutSessionItemRow) :=
  if rows.any (fun s => itemKeyClash s r) then .error .uniqueViolation
  else .ok (rows ++ [r])

/-! ## Water logs (models.py WaterLog) -/

/-- One row of water_logs, models.py lines 319-337. -/
structure WaterLogRow where
  id : Nat
  brand_id : Nat
  user_id : Nat
  log_date : Nat
  ml : Nat
  created_at : Nat
  updated_at : Nat
deriving DecidableEq, Repr

/-- uq_water_user_day, models.py line 335, as a table invariant: at most one
row per (user_id, log_date). -/
def uq_water_user_day (rows : List WaterLogRow) : Prop :=
  rows.Pairwise (fun a b => ¬(a.user_id = b.user_id ∧ a.log_date = b.log_date))

instance (rows : List WaterLogRow) : Decidable (uq_water_user_day rows) := by
  unfold uq_water_user_day; infer_instance

/-- A fresh water_logs row for user and day holding the given amount. -/
def freshWaterRow (brand user day amount freshId now : Nat) : WaterLogRow :=
  { id := freshId, brand_id := brand, user_id := user, log_date := day,
    ml := amount, created_at := now, updated_at := now }

/-- Modelled from the spec: the water-logging endpoint is absent from the
sources; spec 3 states one row per (user, calendar date) with cumulative
milliliters, updates accumulating into it.  Logging adds the amount to the
existing row for (user, date) if there is one, else inserts a fresh row. -/
def logWater (rows : List WaterLogRow) (brand user day amount freshId now : Nat) :
    List WaterLogRow :=
  if rows.any (fun w => w.user_id == user && w.log_date == day) then
    rows.map (fun w =>
      if w.user_id == user && w.log_date == day then
        { w with ml := w.ml + amount, updated_at := now }
      else w)
  else
    rows ++ [freshWaterRow brand user day amount freshId now]

/-! ## Concrete row builders for witnesses -/

/-- A user row with the given identity fields and all optional columns at
their defaults, for concrete instances. -/
def mkUser (id : Nat) (brand : Option Nat) (email phone password : String)
    (salt : Nat) (active : Bool) : UserRow :=
  { id := id
    brand_id := brand
    name := "u"
    email := email
    phone := phone
    password_hash := hash_password password salt
    role := .user
    is_active := active
    challenge_started_at := none
    whatsapp_ai_active_until := none
    plan_id := none
    subscription_status := .free
    plan_valid_until := none
    external_customer_id := none
    created_at := 0
    updated_at := 0 }

/-! ## C1 -/

/-- C1 counterexample: two rows with the same email under two different
brands.  They satisfy both composite constraints uq_users_brand_email and
uq_users_brand_phone, yet they cannot coexist in the users table, because
the column-level unique constraint on email (models.py line 107) is part of
the declared table constraints too — refuting that (brand-scoped
uniqueness) lets the same email exist under two brands. -/
theorem users_brand_scoped_uniqueness_counterexample :
    (mkUser 1 (some 10) "a@b.com" "+5511999990000" "pw1" 0 true).email =
      (mkUser 2 (some 20) "a@b.com" "+5511888880000" "pw2" 0 true).email ∧
    (mkUser 1 (some 10) "a@b.com" "+5511999990000" "pw1" 0 true).brand_id ≠
      (mkUser 2 (some 20) "a@b.com" "+5511888880000" "pw2" 0 true).brand_id ∧
    uq_users_brand_email
      [mkUser 1 (some 10) "a@b.com" "+5511999990000" "pw1" 0 true,
       mkUser 2 (some 20) "a@b.com" "+5511888880000" "pw2" 0 true] ∧
    uq_users_brand_phone
      [mkUser 1 (some 10) "a@b.com" "+5511999990000" "pw1" 0 true,
       mkUser 2 (some 20) "a@b.com" "+5511888880000" "pw2" 0 true] ∧
    ¬ usersTableOk
      [mkUser 1 (some 10) "a@b.com" "+5511999990000" "pw1" 0 true,
       mkUser 2 (some 20) "a@b.com" "+5511888880000" "pw2" 0 true] := by
  refine ⟨rfl, by decide, by decide, by decide, ?_⟩
  intro h
  exact absurd h.1 (by decide)

/-- C1 (amended): the users table declares the composite constraints
(brand_id, email) and (brand_id, phone), and any admissible table satisfies
them; but since the column-level unique constraints on email and phone are
declared as well, uniqueness is effectively global: two distinct rows never
share an email or a phone, even under different brands. -/
theorem users_table_uniqueness_effectively_global (rows : List UserRow)
    (h : usersTableOk rows) :
    (uq_users_brand_email rows ∧ uq_users_brand_phone rows) ∧
    ∀ a ∈ rows, ∀ b ∈ rows, a ≠ b → a.email ≠ b.email ∧ a.phone ≠ b.phone := by
  obtain ⟨hemail, hphone, hbe, hbp⟩ := h
  have hes : Symmetric (fun a b : UserRow => a.email ≠ b.email) := by
    intro x y hxy e
    exact hxy e.symm
  have hps : Symmetric (fun a b : UserRow => a.phone ≠ b.phone) := by
    intro x y hxy e
    exact hxy e.symm
  refine ⟨⟨hbe, hbp⟩, fun a ha b hb hab => ⟨?_, ?_⟩⟩
  · exact List.Pairwise.forall hes hemail ha hb hab
  · exact List.Pairwise.forall hps hphone ha hb hab

/-- C1 witness: an admissible two-row table, with the amended conclusion at
its two rows. -/
theorem users_table_uniqueness_effectively_global_witness :
    usersTableOk
      [mkUser 1 (some 10) "a@b.com" "+5511999990000" "pw1" 0 true,
       mkUser 2 (some 20) "c@d.com" "+5511888880000" "pw2" 0 true] ∧
    (mkUser 1 (some 10) "a@b.com" "+5511999990000" "pw1" 0 true).email ≠
      (mkUser 2 (some 20) "c@d.com" "+5511888880000" "pw2" 0 true).email :=
  ⟨by decide,
   ((users_table_uniqueness_effectively_global
      [mkUser 1 (some 10) "a@b.com" "+5511999990000" "pw1" 0 true,
       mkUser 2 (some 20) "c@d.com" "+5511888880000" "pw2" 0 true]
      (by decide)).2
      (mkUser 1 (some 10) "a@b.com" "+5511999990000" "pw1" 0 true) (by decide)
      (mkUser 2 (some 20) "c@d.com" "+5511888880000" "pw2" 0 true) (by decide)
      (by decide)).1⟩

/-! ## C2, C3, C10 -/

/-- C2: every failing login — no user with the normalized email, user found
but inactive, or password not verifying — returns the one 401
invalidCredentialsErr, so the cases are indistinguishable to the caller;
and a found-but-inactive user fails this way regardless of the password. -/
theorem login_failures_single_error (data : LoginIn) (db : List UserRow) :
    ((login data db).result.isOk = false →
      (login data db).result = .error invalidCredentialsErr) ∧
    (∀ u, db.find? (fun r => r.email == normalize_email data.email) = some u →
      u.is_active = false →
      (login data db).result = .error invalidCredentialsErr) := by
  constructor
  · intro h
    unfold login at h ⊢
    cases hfind : db.find? (fun r => r.email == normalize_email data.email) with
    | none => simp [hfind]
    | some u =>
      rw [hfind] at h
      cases ha : u.is_active with
      | false => simp [ha]
      | true =>
        cases hv : verify_password data.password u.password_hash with
        | false => simp [ha, hv]
        | true => simp [ha, hv, Except.isOk, Except.toBool] at h
  · intro u hfind hactive
    unfold login
    rw [hfind]
    simp [hactive]

/-- C2 witness: a stored inactive user whose password would verify; login
with exactly that password still fails with the 401. -/
theorem login_failures_single_error_witness :
    [mkUser 7 none "ana@x.com" "+5511999990000" "segredo1" 0 false].find?
        (fun r => r.email == normalize_email "ana@x.com") =
      some (mkUser 7 none "ana@x.com" "+5511999990000" "segredo1" 0 false) ∧
    (mkUser 7 none "ana@x.com" "+5511999990000" "segredo1" 0 false).is_active = false ∧
    verify_password "segredo1"
      (mkUser 7 none "ana@x.com" "+5511999990000" "segredo1" 0 false).password_hash = true ∧
    (login { email := "ana@x.com", password := "segredo1" }
        [mkUser 7 none "ana@x.com" "+5511999990000" "segredo1" 0 false]).result =
      .error invalidCredentialsErr :=
  ⟨by decide, rfl, by decide,
   (login_failures_single_error { email := "ana@x.com", password := "segredo1" }
      [mkUser 7 none "ana@x.com" "+5511999990000" "segredo1" 0 false]).2
      (mkUser 7 none "ana@x.com" "+5511999990000" "segredo1" 0 false) (by decide) rfl⟩

/-- C3: when the lookup by normalized email finds an active user and the
password verifies against the stored hash, login answers 200 with a token
whose subject is the stored id rendered as a string, whose role claim is
the stored role, and token_type bearer. -/
theorem login_success_returns_token (data : LoginIn) (db : List UserRow) (u : UserRow)
    (hfind : db.find? (fun r => r.email == normalize_email data.email) = some u)
    (hactive : u.is_active = true)
    (hpw : verify_password data.password u.password_hash = true) :
    (login data db).result =
      .ok { access_token := { sub := toString u.id, role := u.role },
            token_type := "bearer" } := by
  unfold login
  rw [hfind]
  simp [hactive, hpw, create_access_token]

/-- C3 witness: a concrete active user and the matching password. -/
theorem login_success_returns_token_witness :
    [mkUser 7 none "ana@x.com" "+5511999990000" "segredo1" 0 true].find?
        (fun r => r.email == normalize_email "ANA@X.com") =
      some (mkUser 7 none "ana@x.com" "+5511999990000" "segredo1" 0 true) ∧
    (mkUser 7 none "ana@x.com" "+5511999990000" "segredo1" 0 true).is_active = true ∧
    verify_password "segredo1"
      (mkUser 7 none "ana@x.com" "+5511999990000" "segredo1" 0 true).password_hash = true ∧
    (login { email := "ANA@X.com", password := "segredo1" }
        [mkUser 7 none "ana@x.com" "+5511999990000" "segredo1" 0 true]).result =
      .ok { access_token := { sub := "7", role := .user }, token_type := "bearer" } :=
  ⟨by decide, rfl, by decide,
   login_success_returns_token { email := "ANA@X.com", password := "segredo1" }
      [mkUser 7 none "ana@x.com" "+5511999990000" "segredo1" 0 true]
      (mkUser 7 none "ana@x.com" "+5511999990000" "segredo1" 0 true)
      (by decide) rfl (by decide)⟩

/-- C10: the outcome of login depends only on each stored row's id, email,
password hash, role and active flag: rewriting every row in any way that
keeps those five fields — in particular setting subscription_status to
expired, canceled or past_due, or moving plan_valid_until into the past —
leaves the login result unchanged, so an active user with a verifying
password still receives the token. -/
theorem login_ignores_subscription_fields (data : LoginIn) (db : List UserRow)
    (g : UserRow → UserRow)
    (hg : ∀ r, (g r).id = r.id ∧ (g r).email = r.email ∧
      (g r).password_hash = r.password_hash ∧ (g r).role = r.role ∧
      (g r).is_active = r.is_active) :
    (login data (db.map g)).result = (login data db).result := by
  unfold login
  have hp : ((fun r : UserRow => r.email == normalize_email data.email) ∘ g) =
      (fun r => r.email == normalize_email data.email) := by
    funext r
    simp only [Function.comp_apply]
    rw [(hg r).2.1]
  rw [List.find?_map, hp]
  cases hfind : db.find? (fun r => r.email == normalize_email data.email) with
  | none => rfl
  | some u =>
    obtain ⟨hid, he, hh, hr, ha⟩ := hg u
    rw [show Option.map g (some u) = some (g u) from rfl]
    dsimp only
    rw [hh, ha, hid, hr]
    cases u.is_active with
    | false => rfl
    | true =>
      cases verify_password data.password u.password_hash with
      | false => rfl
      | true => rfl

/-- The subscription-field rewrite used in the C10 witness: an expired
subscription with a plan_valid_until in the past. -/
def expireSub (r : UserRow) : UserRow :=
  { r with subscription_status := .expired, plan_valid_until := some 1, plan_id := some 3 }

/-- C10 witness: expiring the stored active user's subscription leaves the
login result unchanged, and that result is the success token. -/
theorem login_ignores_subscription_fields_witness :
    (login ⟨"ana@x.com", "segredo1"⟩
        ([mkUser 7 none "ana@x.com" "+55" "segredo1" 0 true].map expireSub)).result =
      (login ⟨"ana@x.com", "segredo1"⟩
        [mkUser 7 none "ana@x.com" "+55" "segredo1" 0 true]).result ∧
    (login ⟨"ana@x.com", "segredo1"⟩
        ([mkUser 7 none "ana@x.com" "+55" "segredo1" 0 true].map expireSub)).result =
      .ok { access_token := { sub := "7", role := .user }, token_type := "bearer" } :=
  ⟨login_ignores_subscription_fields ⟨"ana@x.com", "segredo1"⟩
      [mkUser 7 none "ana@x.com" "+55" "segredo1" 0 true] expireSub
      (fun _ => ⟨rfl, rfl, rfl, rfl, rfl⟩),
   rfl⟩

/-! ## C4, C5, C6 -/

/-- C4: whenever some stored row's email equals the submitted email after
normalization (strip then lowercase) — so for any casing or surrounding
whitespace variant of it — register answers the 400 duplicate-email
error. -/
theorem register_duplicate_email_normalized (user_in : UserCreate)
    (freshId salt now : Nat) (db : List UserRow) (r : UserRow) (hr : r ∈ db)
    (he : r.email = normalize_email user_in.email) :
    (register user_in freshId salt now db).result = .error duplicateEmailErr := by
  have hfound : (db.find? (fun x => x.email == normalize_email user_in.email)).isSome :=
    List.find?_isSome.mpr ⟨r, hr, by simp [he]⟩
  unfold register
  simp [hfound]

/-- The registration input of the concrete scenario in spec 8, upper-cased
email variant. -/
def anaCreate : UserCreate := ⟨"Ana", "A@B.com", "+1", "secret1"⟩

/-- A second registration input whose email is a whitespace-and-case
variant of anaCreate's. -/
def bobCreate : UserCreate := ⟨"Bob", " a@b.com ", "+2", "secret2"⟩

/-- C4 witness: register A@B.com, then re-register with " a@b.com " — the
stored normalized email matches and the second call fails. -/
theorem register_duplicate_email_normalized_witness :
    newUserRow anaCreate 1 0 0 ∈ (register anaCreate 1 0 0 []).db ∧
    (newUserRow anaCreate 1 0 0).email = normalize_email " a@b.com " ∧
    (register bobCreate 2 0 0 (register anaCreate 1 0 0 []).db).result =
      .error duplicateEmailErr :=
  ⟨by decide, by decide,
   register_duplicate_email_normalized bobCreate 2 0 0 (register anaCreate 1 0 0 []).db
     (newUserRow anaCreate 1 0 0) (by decide) (by decide)⟩

/-- C5: with no duplicate email or phone stored, register appends exactly
the one new row — role user, active, hash from hash_password, brand_id
empty (never from the input, which carries no brand field) — and answers
the id and email only (RegisterOut has no token field). -/
theorem register_success_creates_single_user (user_in : UserCreate)
    (freshId salt now : Nat) (db : List UserRow)
    (hemail : ∀ r ∈ db, r.email ≠ normalize_email user_in.email)
    (hphone : ∀ r ∈ db, r.phone ≠ user_in.phone) :
    (register user_in freshId salt now db).db =
        db ++ [newUserRow user_in freshId salt now] ∧
    (register user_in freshId salt now db).result =
        .ok { id := toString freshId, email := normalize_email user_in.email } ∧
    (newUserRow user_in freshId salt now).role = .user ∧
    (newUserRow user_in freshId salt now).is_active = true ∧
    (newUserRow user_in freshId salt now).password_hash =
        hash_password user_in.password salt ∧
    (newUserRow user_in freshId salt now).brand_id = none := by
  have h1 : db.find? (fun x => x.email == normalize_email user_in.email) = none := by
    rw [List.find?_eq_none]
    intro x hx
    simp [hemail x hx]
  have h2 : db.find? (fun x => x.phone == user_in.phone) = none := by
    rw [List.find?_eq_none]
    intro x hx
    simp [hphone x hx]
  unfold register
  rw [h1, h2]
  exact ⟨rfl, rfl, rfl, rfl, rfl, rfl⟩

/-- The registration input for the C5 witness. -/
def ana2Create : UserCreate := ⟨"Ana", "Ana@X.com", "+55", "segredo1"⟩

/-- C5 witness: registering into the empty store. -/
theorem register_success_creates_single_user_witness :
    (register ana2Create 9 3 5 []).db = [] ++ [newUserRow ana2Create 9 3 5] ∧
    (register ana2Create 9 3 5 []).result =
      .ok { id := toString 9, email := normalize_email ana2Create.email } ∧
    (newUserRow ana2Create 9 3 5).role = .user ∧
    (newUserRow ana2Create 9 3 5).is_active = true ∧
    (newUserRow ana2Create 9 3 5).password_hash = hash_password ana2Create.password 3 ∧
    (newUserRow ana2Create 9 3 5).brand_id = none :=
  register_success_creates_single_user ana2Create 9 3 5 [] (by simp) (by simp)

/-- C6: when no stored row matches the normalized email but some stored row
has the submitted phone, register answers the 400 duplicate-phone error
(the email check having passed first). -/
theorem register_duplicate_phone_after_email (user_in : UserCreate)
    (freshId salt now : Nat) (db : List UserRow)
    (hemail : ∀ r ∈ db, r.email ≠ normalize_email user_in.email)
    (r : UserRow) (hr : r ∈ db) (hp : r.phone = user_in.phone) :
    (register user_in freshId salt now db).result = .error duplicatePhoneErr := by
  have h1 : db.find? (fun x => x.email == normalize_email user_in.email) = none := by
    rw [List.find?_eq_none]
    intro x hx
    simp [hemail x hx]
  have h2 : (db.find? (fun x => x.phone == user_in.phone)).isSome :=
    List.find?_isSome.mpr ⟨r, hr, by simp [hp]⟩
  unfold register
  rw [h1]
  simp [h2]

/-- A registration input reusing a stored phone under a fresh email. -/
def carlCreate : UserCreate := ⟨"Carl", "new@z.com", "+5511999990000", "secret2"⟩

/-- C6 witness: a store holding the phone under another email. -/
theorem register_duplicate_phone_after_email_witness :
    (∀ r ∈ [mkUser 1 none "x@y.com" "+5511999990000" "pw" 0 true],
      r.email ≠ normalize_email carlCreate.email) ∧
    (mkUser 1 none "x@y.com" "+5511999990000" "pw" 0 true).phone = carlCreate.phone ∧
    (register carlCreate 2 0 0
      [mkUser 1 none "x@y.com" "+5511999990000" "pw" 0 true]).result =
      .error duplicatePhoneErr :=
  ⟨by decide, rfl,
   register_duplicate_phone_after_email carlCreate 2 0 0
     [mkUser 1 none "x@y.com" "+5511999990000" "pw" 0 true]
     (by decide)
     (mkUser 1 none "x@y.com" "+5511999990000" "pw" 0 true) (by decide) rfl⟩

/-! ## C9 -/

/-- C9: login never changes the store and commits no write transaction, on
success and on every failure; register commits exactly one write
transaction inserting exactly the one new row when it succeeds, and
commits nothing, leaving the store unchanged, when it fails. -/
theorem auth_flow_write_effects (data : LoginIn) (user_in : UserCreate)
    (freshId salt now : Nat) (db : List UserRow) :
    (login data db).db = db ∧
    (login data db).commits = 0 ∧
    ((register user_in freshId salt now db).result.isOk = true →
      (register user_in freshId salt now db).db =
          db ++ [newUserRow user_in freshId salt now] ∧
      (register user_in freshId salt now db).commits = 1) ∧
    ((register user_in freshId salt now db).result.isOk = false →
      (register user_in freshId salt now db).db = db ∧
      (register user_in freshId salt now db).commits = 0) := by
  have hl : (login data db).db = db ∧ (login data db).commits = 0 := by
    unfold login
    cases db.find? (fun r => r.email == normalize_email data.email) with
    | none => exact ⟨rfl, rfl⟩
    | some u =>
      dsimp only
      cases u.is_active with
      | false => exact ⟨rfl, rfl⟩
      | true =>
        cases verify_password data.password u.password_hash with
        | false => exact ⟨rfl, rfl⟩
        | true => exact ⟨rfl, rfl⟩
  have hreg :
      ((register user_in freshId salt now db).result.isOk = true →
        (register user_in freshId salt now db).db =
            db ++ [newUserRow user_in freshId salt now] ∧
        (register user_in freshId salt now db).commits = 1) ∧
      ((register user_in freshId salt now db).result.isOk = false →
        (register user_in freshId salt now db).db = db ∧
        (register user_in freshId salt now db).commits = 0) := by
    unfold register
    cases (db.find? (fun x => x.email == normalize_email user_in.email)).isSome with
    | true =>
      constructor
      · intro h
        simp [Except.isOk, Except.toBool] at h
      · intro _
        exact ⟨rfl, rfl⟩
    | false =>
      cases (db.find? (fun x => x.phone == user_in.phone)).isSome with
      | true =>
        constructor
        · intro h
          simp [Except.isOk, Except.toBool] at h
        · intro _
          exact ⟨rfl, rfl⟩
      | false =>
        constructor
        · intro _
          exact ⟨rfl, rfl⟩
        · intro h
          simp [Except.isOk, Except.toBool] at h
  exact ⟨hl.1, hl.2, hreg.1, hreg.2⟩

/-- C9 witness: a failing login against the empty store and a succeeding
register into it. -/
theorem auth_flow_write_effects_witness :
    (login ⟨"a@b.com", "x"⟩ []).db = ([] : List UserRow) ∧
    (login ⟨"a@b.com", "x"⟩ []).commits = 0 ∧
    (register anaCreate 1 0 0 []).result.isOk = true ∧
    (register anaCreate 1 0 0 []).db = [] ++ [newUserRow anaCreate 1 0 0] ∧
    (register anaCreate 1 0 0 []).commits = 1 :=
  have h := auth_flow_write_effects ⟨"a@b.com", "x"⟩ anaCreate 1 0 0 []
  ⟨h.1, h.2.1, by decide, (h.2.2.1 (by decide)).1, (h.2.2.1 (by decide)).2⟩

/-! ## C7 -/

/-- C7: inserting a workout session that shares (user_id,
workout_template_id, session_date) with a stored one fails with the
uniqueness violation, and a successful insert preserves
uq_session_unique_day — so at most one session per key exists; likewise,
within the items table, a clash on (session_id, exercise_id) fails and a
successful insert preserves uq_session_exercise. -/
theorem workout_session_uniqueness
    (srows : List WorkoutSessionRow) (r : WorkoutSessionRow)
    (irows : List WorkoutSessionItemRow) (it : WorkoutSessionItemRow) :
    ((∃ s ∈ srows, sessionKeyClash s r = true) →
      insertWorkoutSession srows r = .error .uniqueViolation) ∧
    (uq_session_unique_day srows →
      ∀ rows2, insertWorkoutSession srows r = .ok rows2 →
        uq_session_unique_day rows2) ∧
    ((∃ s ∈ irows, itemKeyClash s it = true) →
      insertSessionItem irows it = .error .uniqueViolation) ∧
    (uq_session_exercise irows →
      ∀ rows2, insertSessionItem irows it = .ok rows2 →
        uq_session_exercise rows2) := by
  refine ⟨?_, ?_, ?_, ?_⟩
  · intro h
    have : srows.any (fun s => sessionKeyClash s r) = true := by
      rw [List.any_eq_true]
      obtain ⟨s, hs, hc⟩ := h
      exact ⟨s, hs, hc⟩
    simp [insertWorkoutSession, this]
  · intro huq rows2 hok
    unfold insertWorkoutSession at hok
    by_cases hany : srows.any (fun s => sessionKeyClash s r) = true
    · simp [hany] at hok
    · rw [if_neg hany] at hok
      obtain rfl : srows ++ [r] = rows2 := by
        simpa using hok
      unfold uq_session_unique_day at huq ⊢
      rw [List.pairwise_append]
      refine ⟨huq, List.pairwise_singleton _ _, ?_⟩
      intro a ha b hb
      rw [List.mem_singleton] at hb
      subst hb
      rw [List.any_eq_true] at hany
      push_neg at hany
      exact Bool.not_eq_true _ ▸ hany a ha
  · intro h
    have : irows.any (fun s => itemKeyClash s it) = true := by
      rw [List.any_eq_true]
      obtain ⟨s, hs, hc⟩ := h
      exact ⟨s, hs, hc⟩
    simp [insertSessionItem, this]
  · intro huq rows2 hok
    unfold insertSessionItem at hok
    by_cases hany : irows.any (fun s => itemKeyClash s it) = true
    · simp [hany] at hok
    · rw [if_neg hany] at hok
      obtain rfl : irows ++ [it] = rows2 := by
        simpa using hok
      unfold uq_session_exercise at huq ⊢
      rw [List.pairwise_append]
      refine ⟨huq, List.pairwise_singleton _ _, ?_⟩
      intro a ha b hb
      rw [List.mem_singleton] at hb
      subst hb
      rw [List.any_eq_true] at hany
      push_neg at hany
      exact Bool.not_eq_true _ ▸ hany a ha

/-- A stored workout session for the C7 witness. -/
def sess0 : WorkoutSessionRow :=
  { id := 1, brand_id := 1, user_id := 4, workout_template_id := 8,
    session_date := 20240101, is_completed := false, created_at := 0, updated_at := 0 }

/-- A second session for the same user, template and date. -/
def sess1 : WorkoutSessionRow :=
  { id := 2, brand_id := 1, user_id := 4, workout_template_id := 8,
    session_date := 20240101, is_completed := true, created_at := 5, updated_at := 5 }

/-- A stored session item for the C7 witness. -/
def item0 : WorkoutSessionItemRow := { id := 1, session_id := 3, exercise_id := 9, is_done := false }

/-- A second item for the same session and exercise. -/
def item1 : WorkoutSessionItemRow := { id := 2, session_id := 3, exercise_id := 9, is_done := true }

/-- C7 witness: the duplicate session and the duplicate item are both
rejected with the uniqueness violation. -/
theorem workout_session_uniqueness_witness :
    insertWorkoutSession [sess0] sess1 = .error .uniqueViolation ∧
    insertSessionItem [item0] item1 = .error .uniqueViolation :=
  ⟨(workout_session_uniqueness [sess0] sess1 [item0] item1).1
      ⟨sess0, by decide, by decide⟩,
   (workout_session_uniqueness [sess0] sess1 [item0] item1).2.2.1
      ⟨item0, by decide, by decide⟩⟩

/-! ## C8 -/

/-- C8: water logging keeps uq_water_user_day invariant — at most one row
per (user_id, log_date) — and two 300ml logs on the same date against a
store with no row yet for that user and date leave exactly one new row,
with ml accumulated to 600, the other rows untouched. -/
theorem water_log_single_row_accumulates
    (rows : List WaterLogRow) (brand user day amount freshId now : Nat)
    (huq : uq_water_user_day rows)
    (hnone : ∀ w ∈ rows, ¬(w.user_id = user ∧ w.log_date = day))
    (f1 n1 f2 n2 : Nat) :
    uq_water_user_day (logWater rows brand user day amount freshId now) ∧
    logWater (logWater rows brand user day 300 f1 n1) brand user day 300 f2 n2 =
      rows ++ [{ freshWaterRow brand user day 600 f1 n1 with updated_at := n2 }] := by
  have hanyF : rows.any (fun w => w.user_id == user && w.log_date == day) = false := by
    rw [List.any_eq_false]
    intro w hw
    simpa using hnone w hw
  constructor
  · unfold logWater
    rw [hanyF]
    simp only [Bool.false_eq_true, if_false]
    unfold uq_water_user_day at huq ⊢
    rw [List.pairwise_append]
    refine ⟨huq, List.pairwise_singleton _ _, ?_⟩
    intro a ha b hb
    rw [List.mem_singleton] at hb
    subst hb
    exact fun hk => hnone a ha ⟨hk.1, hk.2⟩
  · have h1 : logWater rows brand user day 300 f1 n1 =
        rows ++ [freshWaterRow brand user day 300 f1 n1] := by
      unfold logWater
      rw [hanyF]
      simp
    rw [h1]
    unfold logWater
    have hanyT : ((rows ++ [freshWaterRow brand user day 300 f1 n1]).any
        (fun w => w.user_id == user && w.log_date == day)) = true := by
      rw [List.any_append]
      simp [freshWaterRow]
    rw [hanyT, if_pos rfl, List.map_append]
    have hmap : rows.map (fun w =>
        if w.user_id == user && w.log_date == day then
          { w with ml := w.ml + 300, updated_at := n2 } else w) = rows := by
      conv_rhs => rw [show rows = rows.map id from (List.map_id rows).symm]
      apply List.map_congr_left
      intro w hw
      have hfw : (w.user_id == user && w.log_date == day) = false := by
        simpa using hnone w hw
      simp [hfw]
    rw [hmap]
    simp [freshWaterRow]

/-- C8 witness: two 300ml logs into the empty store on the same day. -/
theorem water_log_single_row_accumulates_witness :
    uq_water_user_day (logWater [] 1 4 20240101 300 7 0) ∧
    logWater (logWater [] 1 4 20240101 300 7 0) 1 4 20240101 300 8 2 =
      [] ++ [{ freshWaterRow 1 4 20240101 600 7 0 with updated_at := 2 }] :=
  ⟨(water_log_single_row_accumulates [] 1 4 20240101 300 7 0 (by decide) (by decide)
      7 0 8 2).1,
   (water_log_single_row_accumulates [] 1 4 20240101 300 7 0 (by decide) (by decide)
      7 0 8 2).2⟩

end Saas
